import Mathlib

/-!
Shallow embedding of the star-growth animation generator
(`star_growth/generator.py`, `star_growth/github.py`, `star_growth/config.py`)
together with proofs settling the frozen specification claims.

Machine integers are modelled as `Int`/`Nat`; Python floats appearing in the
claimed formulas are modelled as exact rationals (`Rat`); Python strings are
modelled as `String` (operated on through their character lists, matching
Python string indexing); fallible operations return `Option`/`Except`.
-/

namespace StarGrowth

/-- Python builtin `round` on a real value, modelled on rationals:
round-half-to-even (banker's rounding is spelled: ties go to the even
neighbour), as used at `generator.py:592`. -/
def pyRound (q : ℚ) : ℤ :=
  let f : ℤ := ⌊q⌋
  let r : ℚ := q - (f : ℚ)
  if r < 1/2 then f
  else if 1/2 < r then f + 1
  else if f % 2 = 0 then f else f + 1

/-- Python builtin `int()` applied to a real value: truncation toward zero,
as used at `generator.py:612`. -/
def pyInt (q : ℚ) : ℤ := if 0 ≤ q then ⌊q⌋ else -⌊-q⌋

/-- `generator.ease_value` (generator.py:279-282): the name `"linear"` maps to
the identity; every other name falls through to the ease-out curve. -/
def ease_value (name : String) (t : ℚ) : ℚ :=
  if name = "linear" then t else 1 - (1 - t)^2

/-- `generator.generate_scrolling_stars`, line 319:
`duration_seconds = max(0.1, float(config.duration_seconds))`. -/
def clamped_duration_seconds (d : ℚ) : ℚ := max (1/10) d

/-- `generator.generate_scrolling_stars`, line 592 composed with line 319:
`frame_count = max(1, int(round(fps * duration_seconds)))`. -/
def frame_count (fps : ℕ) (d : ℚ) : ℤ :=
  max 1 (pyRound ((fps : ℚ) * clamped_duration_seconds d))

/-- `generator.generate_scrolling_stars`, line 590:
`start_y = max(0, layout["canvas_height"] - viewport_height)`. -/
def start_scroll_y (canvas_height viewport_height : ℤ) : ℤ :=
  max 0 (canvas_height - viewport_height)

/-- `generator.generate_scrolling_stars`, line 612 (with `end_y = 0` from
line 591): `scroll_y = int(start_y + (end_y - start_y) * eased)`. -/
def scroll_y (canvas_height viewport_height : ℤ) (eased : ℚ) : ℤ :=
  pyInt ((start_scroll_y canvas_height viewport_height : ℚ) +
    ((0 : ℚ) - (start_scroll_y canvas_height viewport_height : ℚ)) * eased)

/-- One star event as assembled by `github.fetch_repo_and_stargazers`
(github.py:112-113): a dict with keys `login`, `starred_at`, `avatar_url`,
each possibly `None`. -/
structure Stargazer where
  login : Option String
  starred_at : Option String
  avatar_url : Option String
deriving DecidableEq, Repr

/-- One display entry as assembled by `generator.build_entries`
(generator.py:254-261). -/
structure DisplayEntry where
  login : String
  date : String
  rank : ℤ
  avatar_url : Option String
deriving DecidableEq, Repr

/-- `generator.build_entries` (generator.py:236-262).  `fmt_date` abstracts
the `datetime.fromisoformat`/`strftime` date rendering of lines 243-247
(including its fallback to the raw string on parse failure), which the claims
do not touch; everything else follows the source line by line.  Note line 238
computes `total = max(1, len(stargazers))` from the FULL input list, while the
enumeration on line 239 runs over the list truncated to `max_entries`. -/
def build_entries (fmt_date : String → String) (stargazers : List Stargazer)
    (current_stars : ℤ) (max_entries : ℕ) : List DisplayEntry :=
  let total : ℤ := max 1 (stargazers.length : ℤ)
  ((stargazers.take max_entries).enum).map (fun p =>
    { login := match p.2.login with
        | some s => if s = "" then "unknown" else s
        | none => "unknown"
      date := match p.2.starred_at with
        | some s => if s = "" then "" else fmt_date s
        | none => ""
      rank := if 0 < current_stars then max 1 (current_stars - (p.1 : ℤ))
        else max 1 (total - (p.1 : ℤ))
      avatar_url := p.2.avatar_url })

/-- Sort key used at github.py:115: `sg.get("starred_at") or ""` (a missing
or empty timestamp yields the empty string). -/
def star_key (sg : Stargazer) : String := sg.starred_at.getD ""

/-- github.py:115: `stargazers.sort(key=..., reverse=True)` — a stable sort,
descending in the key; timestamps are compared as the ISO-8601 strings the
API returns, exactly as the source compares them. -/
def sort_stargazers (l : List Stargazer) : List Stargazer :=
  l.mergeSort (fun a b => decide (star_key b ≤ star_key a))

/-- First-occurrence deduplication, the observable behaviour of Python
`dict.fromkeys(urls)` at generator.py:111 (insertion order preserved,
later duplicates dropped). -/
def py_dict_fromkeys_aux {α : Type} [DecidableEq α] (seen : List α) :
    List α → List α
  | [] => []
  | x :: xs =>
    if x ∈ seen then py_dict_fromkeys_aux seen xs
    else x :: py_dict_fromkeys_aux (x :: seen) xs

/-- Python `list(dict.fromkeys(urls))`. -/
def py_dict_fromkeys {α : Type} [DecidableEq α] (l : List α) : List α :=
  py_dict_fromkeys_aux [] l

/-- Python truthiness filter `if url` on an optional string: keeps exactly
the present, non-empty references (generator.py:111). -/
def truthy_url (u : Option String) : Option String :=
  match u with
  | some s => if s = "" then none else some s
  | none => none

/-- generator.py:111: `unique_urls = [url for url in dict.fromkeys(urls) if url]`. -/
def unique_urls (urls : List (Option String)) : List String :=
  (py_dict_fromkeys urls).filterMap truthy_url

/-- `generator.prefetch_avatars` (generator.py:109-133), parametric in the
image type `α` and in `download`, the embedding of `_download_avatar` (which
returns `None` on any per-URL failure, generator.py:98-106).  The cache is
modelled as the association list with exactly one `download` call per element
of `unique_urls`; the source has two branches (sequential for
`workers <= 1 or len(unique_urls) == 1`, a worker pool otherwise) that fill
the same mapping — the pool branch only changes completion order, which a
mapping does not observe. -/
def prefetch_avatars {α : Type} (download : String → Option α)
    (urls : List (Option String)) : List (String × Option α) :=
  (unique_urls urls).map (fun u => (u, download u))

/-- CPython `pathlib.PurePath.suffixes` on a file NAME (no directory part):
empty if the name ends with a dot, otherwise split the name (leading dots
stripped) on dots and keep every piece after the first, each with a dot
prepended.  Implemented over the character list so that it evaluates. -/
def split_on_dot : List Char → List (List Char)
  | [] => [[]]
  | c :: cs =>
    if c = '.' then [] :: split_on_dot cs
    else match split_on_dot cs with
      | [] => [[c]]
      | p :: ps => (c :: p) :: ps

/-- Python `name.lstrip(".")`. -/
def lstrip_dots (l : List Char) : List Char := l.dropWhile (fun c => c = '.')

/-- `Path(name).suffixes` for a bare file name. -/
def path_suffixes (name : String) : List String :=
  match name.data.getLast? with
  | some '.' => []
  | _ => ((split_on_dot (lstrip_dots name.data)).tail).map
      (fun p => String.mk ('.' :: p))

/-- generator.py:156: `suffix = "".join(base_path.suffixes)`. -/
def joined_suffix (name : String) : String := String.join (path_suffixes name)

/-- generator.py:157-160: the name with the full (multi-segment) suffix chain
chopped off; `name[: -len(suffix)]` when the suffix is non-empty. -/
def path_stem (name : String) : String :=
  if joined_suffix name = "" then name
  else String.mk (name.data.take (name.data.length - (joined_suffix name).data.length))

/-- generator.py:163: the f-string `f"{name_without_suffix} ({counter}){suffix}"`. -/
def numbered_name (stem : String) (n : ℕ) (suf : String) : String :=
  stem ++ " (" ++ toString n ++ ")" ++ suf

/-- The `while candidate.exists()` loop of generator.py:162-165, with the
file system abstracted as the list `ex` of existing names.  `fuel` bounds the
number of loop iterations; the claim theorems only use runs in which a fresh
name is found within the fuel, which `_unique_output_path` supplies amply. -/
def unique_loop (ex : List String) (stem suf : String) : ℕ → ℕ → String
  | 0, c => numbered_name stem c suf
  | fuel + 1, c =>
    let cand := numbered_name stem c suf
    if ex.contains cand then unique_loop ex stem suf fuel (c + 1) else cand

/-- `generator._unique_output_path` (generator.py:153-166) over an abstract
file system `ex` (the set of existing names): return `base_path` itself when
it does not exist, otherwise the first fresh `"stem (n)suffix"` for n = 1, 2, … -/
def unique_output_path (ex : List String) (name : String) : String :=
  if ex.contains name then
    unique_loop ex (path_stem name) (joined_suffix name) (ex.length + 1) 1
  else name

/-- ASCII lower-casing of one character (the `.lower()` calls in the source
only ever see ASCII extension/format strings). -/
def lowerChar (c : Char) : Char :=
  if 'A' ≤ c ∧ c ≤ 'Z' then Char.ofNat (c.toNat + 32) else c

/-- Python `s.lower()`, ASCII model. -/
def str_lower (s : String) : String := String.mk (s.data.map lowerChar)

/-- CPython `pathlib.PurePath.suffix` for a bare file name:
`i = name.rfind('.')`; the suffix is `name[i:]` when `0 < i < len(name) - 1`,
otherwise empty. -/
def path_suffix (name : String) : String :=
  match (name.data.reverse.findIdx? (fun c => c = '.')) with
  | none => ""
  | some j =>
    let i := name.data.length - 1 - j
    if 0 < i ∧ i < name.data.length - 1 then String.mk (name.data.drop i) else ""

/-- Python `Path.with_suffix` (for the valid `.mp4`/`.gif` arguments the
source passes): replace the (single, last) suffix, or append when there is
none. -/
def with_suffix (name new_suf : String) : String :=
  let old := path_suffix name
  if old = "" then name ++ new_suf
  else String.mk (name.data.take (name.data.length - old.data.length)) ++ new_suf

/-- `generator._ensure_extension` (generator.py:145-150) on the name. -/
def ensure_extension (name suffix : String) : String :=
  if path_suffix name ≠ "" then name
  else
    let s := if suffix.startsWith "." then suffix else "." ++ suffix
    with_suffix name s

/-- `config.StarsAnimationConfig.normalized_output_format` (config.py:57-60):
`(output_format or "mp4").lower()`, then anything but `"gif"` is `"mp4"`. -/
def normalized_format (output_format : String) : String :=
  let f := str_lower (if output_format = "" then "mp4" else output_format)
  if f = "gif" then "gif" else "mp4"

/-- generator.py:49-50 and 170-173: the default output file name per format. -/
def default_name (fmt : String) : String :=
  if fmt = "mp4" then "star_growth.mp4" else "star_growth.gif"

/-- The pure core of `generator.resolve_output_path` (generator.py:169-193):
the resolved file NAME together with the coerced output format, before the
collision-avoidance pass.  The file-system probe `_is_directory_hint` is
abstracted as the boolean `is_dir_hint`; the `os.makedirs` call (line 195) is
I/O and has no bearing on the returned value.  Paths are modelled by their
final name component, which is all the lines below inspect. -/
def resolve_output_core (is_dir_hint : Bool) (output output_format : String) :
    String × String :=
  let desired := normalized_format output_format
  let dname := default_name desired
  let raw := if output = "" then dname else output
  let path1 :=
    if is_dir_hint then dname
    else if path_suffix raw = "" then ensure_extension raw ("." ++ desired)
    else raw
  let suf := str_lower (path_suffix path1)
  let path2 := if suf = ".mp4" ∨ suf = ".gif" then path1
    else with_suffix path1 ("." ++ desired)
  let resolved := if suf = ".mp4" ∨ suf = ".gif" then String.mk (lstrip_dots suf.data)
    else desired
  let path3 := if resolved = "gif" ∧ path2 = "star_growth.mp4" then "star_growth.gif"
    else path2
  (path3, resolved)

/-- `generator.resolve_output_path` (generator.py:169-196): the core
resolution followed by `_unique_output_path` over the abstract file system. -/
def resolve_output_path (ex : List String) (is_dir_hint : Bool)
    (output output_format : String) : String × String :=
  let r := resolve_output_core is_dir_hint output output_format
  (unique_output_path ex r.1, r.2)

/-- What one attempt of `github._request_with_retry` observes: either a
network-level `requests.RequestException` or a response with a status code,
the `X-RateLimit-Remaining == "0"` flag, and (for rate-limit handling)
`float(reset_at) - now`, absent when the header is missing. -/
inductive ReqOutcome where
  | netError : ReqOutcome
  | response (status : ℕ) (rate_remaining_zero : Bool) (reset_delta : Option ℚ) :
      ReqOutcome
deriving DecidableEq, Repr

/-- The three `GitHubAPIError` families raised by `_request_with_retry`. -/
inductive ReqError where
  | network : ReqError
  | rateLimit : ReqError
  | httpStatus (status : ℕ) : ReqError
deriving DecidableEq, Repr

/-- github.py:11: `_TRANSIENT_STATUSES = {500, 502, 503, 504}`. -/
def is_transient (st : ℕ) : Bool :=
  decide (st = 500 ∨ st = 502 ∨ st = 503 ∨ st = 504)

/-- The `while True` loop of `github._request_with_retry` (github.py:40-83),
attempt counter `k` starting at 1, the per-attempt observation given by the
trace `o`.  Returns the final outcome — success carries the succeeding
attempt number and status — together with the list of back-off sleeps
(`time.sleep` arguments) performed, in order.  Branches in source order:
network error (lines 50-56), rate-limited 403 (lines 58-69, sleeping
`max(max(backoff * attempt, reset_delta or 0), 1.0)`), transient status
(lines 71-76), any remaining status `>= 400` fatal (lines 78-81), otherwise
return the response (line 83). -/
def request_loop (max_retries : ℕ) (backoff : ℚ) (o : ℕ → ReqOutcome) (k : ℕ) :
    Except ReqError (ℕ × ℕ) × List ℚ :=
  match o k with
  | .netError =>
    if max_retries ≤ k then (.error .network, [])
    else
      let rest := request_loop max_retries backoff o (k + 1)
      (rest.1, backoff * (k : ℚ) :: rest.2)
  | .response st rl0 reset =>
    if st = 403 ∧ rl0 = true then
      if max_retries ≤ k then (.error .rateLimit, [])
      else
        let w := max (backoff * (k : ℚ)) (reset.getD 0)
        let rest := request_loop max_retries backoff o (k + 1)
        (rest.1, max w 1 :: rest.2)
    else if is_transient st ∧ k < max_retries then
      let rest := request_loop max_retries backoff o (k + 1)
      (rest.1, backoff * (k : ℚ) :: rest.2)
    else if 400 ≤ st then (.error (.httpStatus st), [])
    else (.ok (k, st), [])
termination_by max_retries - k
decreasing_by all_goals omega

/-- `github._request_with_retry` run from its first attempt. -/
def request_with_retry (max_retries : ℕ) (backoff : ℚ) (o : ℕ → ReqOutcome) :
    Except ReqError (ℕ × ℕ) × List ℚ :=
  request_loop max_retries backoff o 1

/-- A star event with every field absent, used as a concrete test vector. -/
def anon_stargazer : Stargazer := ⟨none, none, none⟩

/-- Concrete outcome trace: a rate-limited 403 on attempt 1, then a plain 200. -/
def rate_limited_trace : ℕ → ReqOutcome := fun k =>
  if k = 1 then .response 403 true (some 5)
  else if k = 2 then .response 200 false none
  else .netError

/-- Concrete outcome trace: two transient 503 responses, then a 200. -/
def transient_trace : ℕ → ReqOutcome := fun k =>
  if k ≤ 2 then .response 503 false none else .response 200 false none

end StarGrowth

namespace StarGrowth

/-- Helper: the empty string is the minimum of the lexicographic order the
sort at github.py:115 uses. -/
theorem str_le_empty {s : String} (h : s ≤ "") : s = "" := by
  rcases s with ⟨data⟩
  cases data with
  | nil => rfl
  | cons c cs =>
    exfalso
    rw [String.le_iff_toList_le] at h
    exact absurd (List.nil_lt_cons c cs) (not_lt.mpr h)

/-- Claim C4: for t, u in [0,1] with t ≤ u, the easing functions satisfy
ease-out(t) = 1 − (1−t)², linear(t) = t, their values at 0 and 1 are 0 and 1,
and ease-out is non-decreasing on [0,1]. -/
theorem ease_value_spec (t u : ℚ) (h0 : 0 ≤ t) (htu : t ≤ u) (h1 : u ≤ 1) :
    ease_value "ease-out" t = 1 - (1 - t)^2 ∧
    ease_value "linear" t = t ∧
    ease_value "ease-out" 0 = 0 ∧
    ease_value "ease-out" 1 = 1 ∧
    ease_value "linear" 0 = 0 ∧
    ease_value "linear" 1 = 1 ∧
    ease_value "ease-out" t ≤ ease_value "ease-out" u := by
  have hout : ∀ v : ℚ, ease_value "ease-out" v = 1 - (1 - v)^2 := by
    intro v
    simp [ease_value]
  have hlin : ∀ v : ℚ, ease_value "linear" v = v := by
    intro v
    simp [ease_value]
  refine ⟨hout t, hlin t, ?_, ?_, hlin 0, hlin 1, ?_⟩
  · rw [hout]; norm_num
  · rw [hout]; norm_num
  · rw [hout, hout]
    nlinarith [mul_nonneg (sub_nonneg.mpr htu) (by linarith : (0:ℚ) ≤ 2 - t - u)]

/-- Witness for C4 at t = 1/2, u = 3/4. -/
theorem ease_value_spec_witness :
    ease_value "ease-out" (1/2) = 1 - (1 - (1/2 : ℚ))^2 ∧
    ease_value "linear" (1/2) = (1/2 : ℚ) ∧
    ease_value "ease-out" 0 = 0 ∧
    ease_value "ease-out" 1 = 1 ∧
    ease_value "linear" 0 = 0 ∧
    ease_value "linear" 1 = 1 ∧
    ease_value "ease-out" (1/2) ≤ ease_value "ease-out" (3/4) :=
  ease_value_spec (1/2) (3/4) (by norm_num) (by norm_num) (by norm_num)

/-- Claim C10: any curve name other than "linear" — including misspelled
ones — falls through to the ease-out curve; "linear" alone is the identity. -/
theorem ease_value_fallthrough (name : String) (t : ℚ) (h : name ≠ "linear") :
    ease_value name t = 1 - (1 - t)^2 ∧ ease_value "linear" t = t := by
  constructor
  · simp [ease_value, h]
  · simp [ease_value]

/-- Witness for C10 at the misspelled name "liner". -/
theorem ease_value_fallthrough_witness :
    ease_value "liner" (1/3) = 1 - (1 - (1/3 : ℚ))^2 ∧
    ease_value "linear" (1/3) = (1/3 : ℚ) :=
  ease_value_fallthrough "liner" (1/3) (by decide)

/-- Counterexample to claim C3: at fps = 24, duration = 0.01 the renderer
emits max(1, round(24 × max(0.1, 0.01))) = 2 frames, not
max(1, round(24 × 0.01)) = 1, because the duration is clamped below at 0.1
seconds (generator.py:319) before the frame-count formula of line 592. -/
theorem frame_count_counterexample :
    frame_count 24 (1/100) = 2 ∧
    max 1 (pyRound ((24 : ℚ) * (1/100))) = 1 ∧
    frame_count 24 (1/100) ≠ max 1 (pyRound ((24 : ℚ) * (1/100))) := by
  have h1 : frame_count 24 (1/100) = 2 := by
    have : ((24 : ℕ) : ℚ) * clamped_duration_seconds (1/100) = 12/5 := by
      rw [clamped_duration_seconds]
      norm_num
    rw [frame_count, this, pyRound]
    norm_num
  have h2 : max 1 (pyRound ((24 : ℚ) * (1/100))) = 1 := by
    have : (24 : ℚ) * (1/100) = 6/25 := by norm_num
    rw [this, pyRound]
    norm_num
  exact ⟨h1, h2, by rw [h1, h2]; norm_num⟩

/-- Claim C3 as amended: the frame count equals
max(1, round(fps × max(0.1, duration))) — the requested duration is clamped
below at 0.1 s first — it is always at least 1, and fps = 24 with
duration = 8.0 gives 192 frames. -/
theorem frame_count_spec (fps : ℕ) (d : ℚ) :
    frame_count fps d = max 1 (pyRound ((fps : ℚ) * max (1/10) d)) ∧
    1 ≤ frame_count fps d ∧
    frame_count 24 8 = 192 := by
  refine ⟨rfl, le_max_left _ _, ?_⟩
  have : ((24 : ℕ) : ℚ) * clamped_duration_seconds 8 = 192 := by
    rw [clamped_duration_seconds]
    norm_num
  rw [frame_count, this, pyRound]
  norm_num

/-- Counterexample to claim C2: the code truncates with Python `int(...)`
(generator.py:612), not `round(...)`.  With canvas_height = 521,
viewport_height = 520 (so start_y = 1) and eased = 1/4, the interpolant is
3/4: the code emits scroll offset 0 while the claimed formula rounds to 1. -/
theorem scroll_y_round_counterexample :
    scroll_y 521 520 (1/4) = 0 ∧
    pyRound ((start_scroll_y 521 520 : ℚ) +
      ((0 : ℚ) - (start_scroll_y 521 520 : ℚ)) * (1/4)) = 1 ∧
    scroll_y 521 520 (1/4) ≠
      pyRound ((start_scroll_y 521 520 : ℚ) +
        ((0 : ℚ) - (start_scroll_y 521 520 : ℚ)) * (1/4)) := by
  have hs : start_scroll_y 521 520 = 1 := by rw [start_scroll_y]; norm_num
  have hq : (start_scroll_y 521 520 : ℚ) +
      ((0 : ℚ) - (start_scroll_y 521 520 : ℚ)) * (1/4) = 3/4 := by
    rw [hs]
    norm_num
  have h1 : scroll_y 521 520 (1/4) = 0 := by
    rw [scroll_y, hq, pyInt]
    norm_num
  have h2 : pyRound ((start_scroll_y 521 520 : ℚ) +
      ((0 : ℚ) - (start_scroll_y 521 520 : ℚ)) * (1/4)) = 1 := by
    rw [hq, pyRound]
    norm_num
  exact ⟨h1, h2, by rw [h1, h2]; norm_num⟩

/-- Claim C2 as amended: the scroll offset is the TRUNCATION (here: floor,
the interpolant being non-negative) of start_y + (end_y − start_y) × eased;
it always lies in [0, max(0, canvas_height − viewport_height)], and it is a
monotone (non-increasing) function of the eased progress on [0,1]. -/
theorem scroll_y_trunc_spec (cH vH : ℤ) (e1 e2 : ℚ)
    (h0 : 0 ≤ e1) (h12 : e1 ≤ e2) (h2 : e2 ≤ 1) :
    scroll_y cH vH e1 = ⌊(start_scroll_y cH vH : ℚ) * (1 - e1)⌋ ∧
    0 ≤ scroll_y cH vH e1 ∧
    scroll_y cH vH e1 ≤ max 0 (cH - vH) ∧
    scroll_y cH vH e2 ≤ scroll_y cH vH e1 := by
  have hs0 : (0 : ℤ) ≤ start_scroll_y cH vH := le_max_left _ _
  have hsq : (0 : ℚ) ≤ (start_scroll_y cH vH : ℚ) := by exact_mod_cast hs0
  have hform : ∀ e : ℚ, (start_scroll_y cH vH : ℚ) +
      ((0 : ℚ) - (start_scroll_y cH vH : ℚ)) * e =
      (start_scroll_y cH vH : ℚ) * (1 - e) := by
    intro e
    ring
  have hfloor : ∀ e : ℚ, 0 ≤ e → e ≤ 1 →
      scroll_y cH vH e = ⌊(start_scroll_y cH vH : ℚ) * (1 - e)⌋ := by
    intro e he0 he1
    rw [scroll_y, hform, pyInt, if_pos]
    exact mul_nonneg hsq (by linarith)
  have he11 : e1 ≤ 1 := le_trans h12 h2
  have hf1 := hfloor e1 h0 he11
  have hf2 := hfloor e2 (le_trans h0 h12) h2
  refine ⟨hf1, ?_, ?_, ?_⟩
  · rw [hf1]
    exact Int.floor_nonneg.mpr (mul_nonneg hsq (by linarith))
  · rw [hf1]
    have hle : (start_scroll_y cH vH : ℚ) * (1 - e1) ≤ (start_scroll_y cH vH : ℚ) := by
      nlinarith
    calc ⌊(start_scroll_y cH vH : ℚ) * (1 - e1)⌋
        ≤ ⌊(start_scroll_y cH vH : ℚ)⌋ := Int.floor_le_floor hle
      _ = start_scroll_y cH vH := Int.floor_intCast _
      _ = max 0 (cH - vH) := rfl
  · rw [hf1, hf2]
    exact Int.floor_le_floor (by nlinarith)

/-- Witness for C2 (amended) at canvas 600, viewport 520, eased 1/4 and 1/2. -/
theorem scroll_y_trunc_spec_witness :
    scroll_y 600 520 (1/4) = ⌊(start_scroll_y 600 520 : ℚ) * (1 - 1/4)⌋ ∧
    0 ≤ scroll_y 600 520 (1/4) ∧
    scroll_y 600 520 (1/4) ≤ max 0 (600 - 520) ∧
    scroll_y 600 520 (1/2) ≤ scroll_y 600 520 (1/4) :=
  scroll_y_trunc_spec 600 520 (1/4) (1/2) (by norm_num) (by norm_num) (by norm_num)

end StarGrowth

namespace StarGrowth

/-- Counterexample to claim C1: with a full list of 3 stargazers truncated to
max_entries = 2 and current_stars = 0, the code ranks the entries 3, 2 —
using max(1, len(full list)) from generator.py:238 — while the claim
predicts max(1, total_entries − k) over the TRUNCATED list, i.e. ranks 2, 1. -/
theorem build_entries_total_counterexample :
    (build_entries id [anon_stargazer, anon_stargazer, anon_stargazer] 0 2).map
      DisplayEntry.rank = [3, 2] ∧
    [(3 : ℤ), 2] ≠ [max 1 ((2 : ℤ) - 0), max 1 ((2 : ℤ) - 1)] := by
  constructor
  · decide
  · decide

/-- Claim C1 as amended: each produced entry at zero-based offset k of the
truncated list has rank max(1, current_stars − k) when current_stars > 0 and
otherwise max(1, N − k) where N = max(1, length of the FULL pre-truncation
list); the entry list itself is the input truncated to max_entries.  The two
examples of the claim (500 with 3 entries → 500,499,498; 0 with a full list
of 5 entries → 5,4,3,2,1) hold as stated. -/
theorem build_entries_rank_spec (fmt_date : String → String)
    (sgs : List Stargazer) (cur : ℤ) (maxE : ℕ) :
    (build_entries fmt_date sgs cur maxE).map DisplayEntry.rank =
      (List.range (min maxE sgs.length)).map (fun k : ℕ =>
        if 0 < cur then max 1 (cur - (k : ℤ))
        else max 1 (max 1 (sgs.length : ℤ) - (k : ℤ))) ∧
    (build_entries fmt_date sgs cur maxE).length = min maxE sgs.length ∧
    (build_entries id (List.replicate 3 anon_stargazer) 500 30).map
      DisplayEntry.rank = [500, 499, 498] ∧
    (build_entries id (List.replicate 5 anon_stargazer) 0 30).map
      DisplayEntry.rank = [5, 4, 3, 2, 1] := by
  refine ⟨?_, ?_, by decide, by decide⟩
  · have hlen : (sgs.take maxE).length = min maxE sgs.length := by simp
    simp only [build_entries, List.map_map]
    rw [← hlen, ← List.enum_map_fst, List.map_map]
    rfl
  · simp [build_entries]

/-- Claim C5: the post-processing of `fetch_repo_and_stargazers`
(github.py:115-116) returns a permutation of the fetched events, sorted by
the starred-at key descending — timestamps being compared as the ISO-8601
strings the source compares — and every event with a missing timestamp is
placed after all events with a present (non-empty) timestamp. -/
theorem sort_stargazers_spec (l : List Stargazer)
    (hne : ∀ sg ∈ l, sg.starred_at ≠ some "") :
    (sort_stargazers l).Perm l ∧
    (sort_stargazers l).Pairwise (fun a b => star_key b ≤ star_key a) ∧
    (sort_stargazers l).Pairwise
      (fun a b => a.starred_at = none → b.starred_at = none) := by
  have hperm : (sort_stargazers l).Perm l := List.mergeSort_perm l _
  have hpw : (sort_stargazers l).Pairwise
      (fun a b => (decide (star_key b ≤ star_key a)) = true) := by
    apply List.sorted_mergeSort
    · intro a b c hab hbc
      simp only [decide_eq_true_eq] at hab hbc ⊢
      exact le_trans hbc hab
    · intro a b
      simp only [Bool.or_eq_true, decide_eq_true_eq]
      exact le_total _ _
  have hpw2 : (sort_stargazers l).Pairwise (fun a b => star_key b ≤ star_key a) :=
    hpw.imp (by intro a b h; simpa using h)
  refine ⟨hperm, hpw2, ?_⟩
  refine hpw2.imp_of_mem ?_
  intro a b ha hb hle hna
  have hka : star_key a = "" := by rw [star_key, hna]; rfl
  rw [hka] at hle
  have hkb : star_key b = "" := str_le_empty hle
  have hbl : b ∈ l := hperm.mem_iff.mp hb
  cases hb2 : b.starred_at with
  | none => rfl
  | some s =>
    exfalso
    have hs : s = "" := by
      have : star_key b = s := by rw [star_key, hb2]; rfl
      rw [hkb] at this
      exact this.symm
    exact hne b hbl (by rw [hb2, hs])

/-- Concrete out-of-order event list with one missing timestamp. -/
def sample_events : List Stargazer :=
  [⟨some "x", some "2024-01-01T00:00:00Z", none⟩,
   ⟨some "y", none, none⟩,
   ⟨some "z", some "2024-03-05T00:00:00Z", none⟩]

/-- Witness for C5 on `sample_events`. -/
theorem sort_stargazers_spec_witness :
    (sort_stargazers sample_events).Perm sample_events ∧
    (sort_stargazers sample_events).Pairwise
      (fun a b => star_key b ≤ star_key a) ∧
    (sort_stargazers sample_events).Pairwise
      (fun a b => a.starred_at = none → b.starred_at = none) :=
  sort_stargazers_spec sample_events (by decide)

/-- Helper: membership in the first-occurrence deduplication. -/
theorem py_dict_fromkeys_aux_mem {α : Type} [DecidableEq α] (l : List α) :
    ∀ (seen : List α) (a : α),
      a ∈ py_dict_fromkeys_aux seen l ↔ a ∈ l ∧ a ∉ seen := by
  induction l with
  | nil =>
    intro seen a
    simp [py_dict_fromkeys_aux]
  | cons x xs ih =>
    intro seen a
    by_cases hx : x ∈ seen
    · simp only [py_dict_fromkeys_aux, if_pos hx, ih, List.mem_cons]
      constructor
      · rintro ⟨h1, h2⟩
        exact ⟨Or.inr h1, h2⟩
      · rintro ⟨h1 | h1, h2⟩
        · exact absurd (h1 ▸ hx) h2
        · exact ⟨h1, h2⟩
    · simp only [py_dict_fromkeys_aux, if_neg hx, List.mem_cons, ih]
      constructor
      · rintro (h | ⟨h1, h2⟩)
        · exact ⟨Or.inl h, h ▸ hx⟩
        · exact ⟨Or.inr h1, fun hs => h2 (Or.inr hs)⟩
      · rintro ⟨h | h, h2⟩
        · exact Or.inl h
        · by_cases hax : a = x
          · exact Or.inl hax
          · exact Or.inr ⟨h, by simp [List.mem_cons, hax, h2]⟩

/-- Helper: the first-occurrence deduplication never repeats an element. -/
theorem py_dict_fromkeys_aux_nodup {α : Type} [DecidableEq α] (l : List α) :
    ∀ seen : List α, (py_dict_fromkeys_aux seen l).Nodup := by
  induction l with
  | nil =>
    intro seen
    simp [py_dict_fromkeys_aux]
  | cons x xs ih =>
    intro seen
    by_cases hx : x ∈ seen
    · simpa [py_dict_fromkeys_aux, hx] using ih seen
    · simp only [py_dict_fromkeys_aux, if_neg hx]
      rw [List.nodup_cons]
      refine ⟨?_, ih (x :: seen)⟩
      intro hmem
      rw [py_dict_fromkeys_aux_mem] at hmem
      exact hmem.2 (List.mem_cons_self x seen)

/-- Helper: what the Python truthiness filter keeps. -/
theorem truthy_url_eq (a : Option String) (b : String)
    (h : truthy_url a = some b) : a = some b ∧ b ≠ "" := by
  cases a with
  | none => simp [truthy_url] at h
  | some s =>
    by_cases hs : s = ""
    · simp [truthy_url, hs] at h
    · rw [truthy_url] at h
      simp only [if_neg hs, Option.some.injEq] at h
      exact ⟨by rw [h], h ▸ hs⟩

/-- Helper: the deduplicated reference list has no duplicates, so exactly one
fetch is issued per distinct non-absent reference. -/
theorem unique_urls_nodup (urls : List (Option String)) :
    (unique_urls urls).Nodup := by
  rw [unique_urls]
  apply List.Nodup.filterMap
  · intro a a2 b hb hb2
    have h1 := truthy_url_eq a b hb
    have h2 := truthy_url_eq a2 b hb2
    rw [h1.1, h2.1]
  · exact py_dict_fromkeys_aux_nodup urls []

/-- Helper: the deduplicated reference list holds exactly the present,
non-empty references of the input. -/
theorem unique_urls_mem (urls : List (Option String)) (u : String) :
    u ∈ unique_urls urls ↔ some u ∈ urls ∧ u ≠ "" := by
  rw [unique_urls, List.mem_filterMap]
  constructor
  · rintro ⟨a, ha, hfa⟩
    obtain ⟨ha2, hne⟩ := truthy_url_eq a u hfa
    rw [py_dict_fromkeys, py_dict_fromkeys_aux_mem] at ha
    exact ⟨ha2 ▸ ha.1, hne⟩
  · rintro ⟨hu, hne⟩
    refine ⟨some u, ?_, ?_⟩
    · rw [py_dict_fromkeys, py_dict_fromkeys_aux_mem]
      exact ⟨hu, by simp⟩
    · simp [truthy_url, hne]

/-- Claim C7: the avatar cache keys are exactly the distinct non-absent
references of the input (in particular the absent reference is never a key),
there are no duplicate keys — hence exactly one fetch per distinct non-absent
reference, the fetch trace being one `download` call per key — a failed fetch
simply maps its key to `none` without aborting the batch, and the concrete
input [a, b, a, None] produces the two-entry mapping over a and b. -/
theorem prefetch_avatars_spec {α : Type} (download : String → Option α)
    (urls : List (Option String)) :
    ((prefetch_avatars download urls).map Prod.fst = unique_urls urls) ∧
    (unique_urls urls).Nodup ∧
    (∀ u ∈ unique_urls urls, some u ∈ urls ∧ u ≠ "") ∧
    (∀ u, some u ∈ urls → u ≠ "" → u ∈ unique_urls urls) ∧
    (∀ p ∈ prefetch_avatars download urls, p.2 = download p.1) ∧
    prefetch_avatars download [some "a", some "b", some "a", none] =
      [("a", download "a"), ("b", download "b")] := by
  refine ⟨?_, unique_urls_nodup urls, ?_, ?_, ?_, ?_⟩
  · rw [prefetch_avatars, List.map_map]
    have h : (Prod.fst ∘ fun u : String => (u, download u)) = id := rfl
    rw [h, List.map_id]
  · intro u hu
    exact (unique_urls_mem urls u).mp hu
  · intro u h1 h2
    exact (unique_urls_mem urls u).mpr ⟨h1, h2⟩
  · intro p hp
    rw [prefetch_avatars] at hp
    obtain ⟨u, hu, rfl⟩ := List.mem_map.mp hp
    rfl
  · have h : unique_urls [some "a", some "b", some "a", none] = ["a", "b"] := by
      decide
    rw [prefetch_avatars, h]
    rfl

/-- Witness for C7 with the identity-image fetcher. -/
theorem prefetch_avatars_spec_witness :
    prefetch_avatars (fun u => some u) [some "a", some "b", some "a", none] =
      [("a", some "a"), ("b", some "b")] :=
  (prefetch_avatars_spec (fun u => some u)
    [some "a", some "b", some "a", none]).2.2.2.2.2

end StarGrowth

namespace StarGrowth

/-- Helper: the collision loop returns the first fresh numbered candidate,
provided one occurs within the fuel. -/
theorem unique_loop_eq (ex : List String) (stem suf : String) :
    ∀ (fuel c n : ℕ), c ≤ n → n ≤ c + fuel →
      (∀ m, c ≤ m → m < n → ex.contains (numbered_name stem m suf) = true) →
      ex.contains (numbered_name stem n suf) = false →
      unique_loop ex stem suf fuel c = numbered_name stem n suf := by
  intro fuel
  induction fuel with
  | zero =>
    intro c n h1 h2 _ _
    have hcn : n = c := by omega
    rw [hcn, unique_loop]
  | succ fuel ih =>
    intro c n h1 h2 hprev hfresh
    by_cases hc : c = n
    · subst hc
      simp only [unique_loop, hfresh, Bool.false_eq_true, if_false]
    · have hlt : c < n := lt_of_le_of_ne h1 hc
      have hcont := hprev c le_rfl hlt
      simp only [unique_loop, hcont, if_true]
      exact ih (c + 1) n (by omega) (by omega)
        (fun m hm1 hm2 => hprev m (by omega) hm2) hfresh

/-- Claim C8: when the resolved output name exists, the encoder appends an
incrementing " (n)" suffix (n starting at 1) before the full multi-segment
trailing extension chain, taken as one unit, returning the first candidate
that does not exist; in particular "clip.mp4" colliding yields "clip (1).mp4"
and "archive.tar.gz" colliding together with "archive (1).tar.gz" yields
"archive (2).tar.gz". -/
theorem unique_output_path_spec (ex : List String) (name : String) (n : ℕ)
    (hbase : ex.contains name = true) (hn1 : 1 ≤ n) (hnb : n ≤ ex.length + 2)
    (hprev : ∀ m, 1 ≤ m → m < n →
      ex.contains (numbered_name (path_stem name) m (joined_suffix name)) = true)
    (hfresh :
      ex.contains (numbered_name (path_stem name) n (joined_suffix name)) = false) :
    unique_output_path ex name =
      numbered_name (path_stem name) n (joined_suffix name) ∧
    unique_output_path ["clip.mp4"] "clip.mp4" = "clip (1).mp4" ∧
    unique_output_path ["archive.tar.gz", "archive (1).tar.gz"] "archive.tar.gz" =
      "archive (2).tar.gz" := by
  refine ⟨?_, by decide, by decide⟩
  rw [unique_output_path]
  simp only [hbase, if_true]
  exact unique_loop_eq ex _ _ (ex.length + 1) 1 n hn1 (by omega) hprev hfresh

/-- Witness for C8 on the "archive.tar.gz" example. -/
theorem unique_output_path_spec_witness :
    unique_output_path ["archive.tar.gz", "archive (1).tar.gz"] "archive.tar.gz" =
      "archive (2).tar.gz" := by
  have h := unique_output_path_spec ["archive.tar.gz", "archive (1).tar.gz"]
    "archive.tar.gz" 2 (by decide) (by norm_num) (by norm_num)
    (by
      intro m h1 h2
      interval_cases m
      decide)
    (by decide)
  exact h.1.trans (by decide)

/-- Counterexample to claim C9: requesting output "clip.avi" with format
"gif" — an extension that disagrees with the requested format — does NOT let
the extension win: the code (generator.py:183-188) only honours ".mp4"/".gif"
extensions and replaces any other one with the requested format, yielding
"clip.gif" with format "gif" rather than keeping ".avi". -/
theorem resolve_output_ext_counterexample :
    resolve_output_path [] false "clip.avi" "gif" = ("clip.gif", "gif") ∧
    path_suffix "clip.avi" = ".avi" ∧
    (resolve_output_path [] false "clip.avi" "gif").2 ≠ "avi" ∧
    path_suffix (resolve_output_path [] false "clip.avi" "gif").1 ≠ ".avi" := by
  refine ⟨by decide, by decide, by decide, by decide⟩

/-- Claim C9 as amended: when the requested output name carries a RECOGNISED
extension (".mp4" or ".gif", case-insensitively) the extension wins even if
it disagrees with the requested format: the resolved name is returned
unchanged (so it keeps that extension) and the output format is coerced to
the extension; unrecognised extensions are instead replaced by the requested
format. -/
theorem resolve_output_ext_wins (output output_format : String)
    (hne : output ≠ "")
    (hsuf : str_lower (path_suffix output) = ".mp4" ∨
      str_lower (path_suffix output) = ".gif") :
    (resolve_output_core false output output_format).1 = output ∧
    (resolve_output_core false output output_format).2 =
      String.mk (lstrip_dots (str_lower (path_suffix output)).data) ∧
    resolve_output_path [] false output output_format =
      (output, String.mk (lstrip_dots (str_lower (path_suffix output)).data)) := by
  have hsufne : path_suffix output ≠ "" := by
    intro h
    rcases hsuf with h2 | h2 <;> rw [h] at h2 <;> exact absurd h2 (by decide)
  have hmp4 : output = "star_growth.mp4" → str_lower (path_suffix output) = ".mp4" := by
    intro he
    rw [he]
    decide
  have hfinal : ¬(String.mk (lstrip_dots (str_lower (path_suffix output)).data) =
      "gif" ∧ output = "star_growth.mp4") := by
    rintro ⟨hg, ho⟩
    rw [hmp4 ho] at hg
    exact absurd hg (by decide)
  have hcore : resolve_output_core false output output_format =
      (output, String.mk (lstrip_dots (str_lower (path_suffix output)).data)) := by
    rw [resolve_output_core]
    simp only [Bool.false_eq_true, if_false, if_neg hne, if_neg hsufne,
      if_pos hsuf, if_neg hfinal]
  refine ⟨by rw [hcore], by rw [hcore], ?_⟩
  rw [resolve_output_path, hcore]
  simp [unique_output_path]

/-- Witness for C9 (amended): "clip.gif" requested with format "mp4". -/
theorem resolve_output_ext_wins_witness :
    resolve_output_path [] false "clip.gif" "mp4" = ("clip.gif", "gif") := by
  have h := (resolve_output_ext_wins "clip.gif" "mp4" (by decide)
    (Or.inr (by decide))).2.2
  exact h.trans (by decide)

/-- Helper: a network error on attempt k < max_retries sleeps
backoff × k and moves to attempt k + 1 (github.py:50-56). -/
theorem request_loop_net_step (mr : ℕ) (b : ℚ) (o : ℕ → ReqOutcome) (k : ℕ)
    (h : o k = ReqOutcome.netError) (hk : k < mr) :
    request_loop mr b o k =
      ((request_loop mr b o (k + 1)).1,
       b * (k : ℚ) :: (request_loop mr b o (k + 1)).2) := by
  rw [request_loop.eq_def, h]
  simp only [if_neg (show ¬ mr ≤ k by omega)]

/-- Helper: a transient status on attempt k < max_retries sleeps
backoff × k and moves to attempt k + 1 (github.py:71-76). -/
theorem request_loop_transient_step (mr : ℕ) (b : ℚ) (o : ℕ → ReqOutcome)
    (k st : ℕ) (rl0 : Bool) (reset : Option ℚ)
    (h : o k = ReqOutcome.response st rl0 reset) (hst : is_transient st = true)
    (hne403 : ¬(st = 403 ∧ rl0 = true)) (hk : k < mr) :
    request_loop mr b o k =
      ((request_loop mr b o (k + 1)).1,
       b * (k : ℚ) :: (request_loop mr b o (k + 1)).2) := by
  rw [request_loop.eq_def, h]
  simp only [if_neg hne403, if_pos (show is_transient st = true ∧ k < mr from ⟨hst, hk⟩)]

/-- Helper: a rate-limited 403 on attempt k < max_retries sleeps
max(max(backoff × k, reset wait), 1) and moves to attempt k + 1
(github.py:58-69). -/
theorem request_loop_ratelimit_step (mr : ℕ) (b : ℚ) (o : ℕ → ReqOutcome)
    (k : ℕ) (reset : Option ℚ)
    (h : o k = ReqOutcome.response 403 true reset) (hk : k < mr) :
    request_loop mr b o k =
      ((request_loop mr b o (k + 1)).1,
       max (max (b * (k : ℚ)) (reset.getD 0)) 1 ::
         (request_loop mr b o (k + 1)).2) := by
  rw [request_loop.eq_def, h]
  simp only [eq_self_iff_true, and_self, if_true,
    if_neg (show ¬ mr ≤ k by omega)]

/-- Helper: a non-transient, non-rate-limited status below 400 is returned
as a success on the current attempt (github.py:83). -/
theorem request_loop_ok_step (mr : ℕ) (b : ℚ) (o : ℕ → ReqOutcome)
    (k st : ℕ) (rl0 : Bool) (reset : Option ℚ)
    (h : o k = ReqOutcome.response st rl0 reset)
    (hne403 : ¬(st = 403 ∧ rl0 = true))
    (hnt : ¬(is_transient st = true ∧ k < mr)) (hlt : st < 400) :
    request_loop mr b o k = (Except.ok (k, st), []) := by
  rw [request_loop.eq_def, h]
  simp only [if_neg hne403, if_neg hnt, if_neg (show ¬ 400 ≤ st by omega)]

/-- Helper: a non-transient, non-rate-limited status of at least 400 fails
immediately on the current attempt (github.py:78-81). -/
theorem request_loop_fatal_step (mr : ℕ) (b : ℚ) (o : ℕ → ReqOutcome)
    (k st : ℕ) (rl0 : Bool) (reset : Option ℚ)
    (h : o k = ReqOutcome.response st rl0 reset)
    (hne403 : ¬(st = 403 ∧ rl0 = true))
    (hnt : ¬(is_transient st = true ∧ k < mr)) (hge : 400 ≤ st) :
    request_loop mr b o k = (Except.error (ReqError.httpStatus st), []) := by
  rw [request_loop.eq_def, h]
  simp only [if_neg hne403, if_neg hnt, if_pos hge]

/-- Helper: with every attempt failing at the network level, the loop sleeps
backoff × k for attempts k, k+1, …, max_retries − 1 and then fails. -/
theorem request_loop_net_all (mr : ℕ) (b : ℚ) (o : ℕ → ReqOutcome)
    (h : ∀ k, o k = ReqOutcome.netError) :
    ∀ (n k : ℕ), mr - k = n →
      request_loop mr b o k =
        (Except.error ReqError.network,
         (List.range' k (mr - k)).map (fun a : ℕ => b * (a : ℚ))) := by
  intro n
  induction n with
  | zero =>
    intro k hk
    rw [request_loop.eq_def, h k]
    simp only [if_pos (show mr ≤ k by omega)]
    rw [show mr - k = 0 from hk]
    simp
  | succ n ih =>
    intro k hk
    rw [request_loop_net_step mr b o k (h k) (by omega), ih (k + 1) (by omega)]
    rw [show mr - k = n + 1 from hk, show mr - (k + 1) = n by omega,
      List.range'_succ]
    simp

/-- Counterexample to claim C6: a 403 response with the rate-limit-remaining
header at zero is a non-2xx status outside the transient set, yet the code
does NOT fail immediately: with max_retries = 3 it sleeps (here 5 seconds,
the reset-aware wait) and succeeds on attempt 2 of the trace
403-rate-limited, 200. -/
theorem request_retry_counterexample :
    request_with_retry 3 2 rate_limited_trace = (Except.ok (2, 200), [5]) ∧
    request_with_retry 3 2 rate_limited_trace ≠
      (Except.error (ReqError.httpStatus 403), []) := by
  have h1 : rate_limited_trace 1 = ReqOutcome.response 403 true (some 5) := rfl
  have h2 : rate_limited_trace 2 = ReqOutcome.response 200 false none := rfl
  have s1 := request_loop_ratelimit_step 3 2 rate_limited_trace 1 (some 5) h1
    (by omega)
  have s2 := request_loop_ok_step 3 2 rate_limited_trace 2 200 false none h2
    (by simp) (by rintro ⟨hc, _⟩; exact absurd hc (by decide)) (by omega)
  have hmain : request_with_retry 3 2 rate_limited_trace =
      (Except.ok (2, 200), [5]) := by
    show request_loop 3 2 rate_limited_trace 1 = _
    rw [s1, s2]
    norm_num [max_def]
  exact ⟨hmain, by rw [hmain]; simp⟩

/-- Claim C6 as amended: network-level failures are retried up to max_retries
attempts with linear backoff = backoff × attempt (so an all-failing trace
sleeps backoff × k for k = 1 … max_retries − 1 and then fails); a transient
status (500, 502, 503, 504) is retried with the same linear backoff, the
trace 503, 503, 200 succeeding on attempt 3 with sleeps backoff × 1,
backoff × 2 whenever max_retries ≥ 3; any other status ≥ 400 fails
immediately with no retry EXCEPT a 403 carrying the rate-limit-remaining
header at zero, which instead sleeps max(max(backoff × attempt, reset wait), 1)
and retries.  (Statuses below 400 — e.g. redirects — are returned as
successes, not failures.) -/
theorem request_retry_spec (mr : ℕ) (b : ℚ) (o : ℕ → ReqOutcome) :
    ((∀ k, o k = ReqOutcome.netError) →
      request_with_retry mr b o =
        (Except.error ReqError.network,
         (List.range' 1 (mr - 1)).map (fun a : ℕ => b * (a : ℚ)))) ∧
    (3 ≤ mr → o 1 = ReqOutcome.response 503 false none →
      o 2 = ReqOutcome.response 503 false none →
      o 3 = ReqOutcome.response 200 false none →
      request_with_retry mr b o = (Except.ok (3, 200), [b * 1, b * 2])) ∧
    (∀ (st : ℕ) (rl0 : Bool) (reset : Option ℚ),
      o 1 = ReqOutcome.response st rl0 reset → 400 ≤ st →
      is_transient st = false → ¬(st = 403 ∧ rl0 = true) →
      request_with_retry mr b o = (Except.error (ReqError.httpStatus st), [])) ∧
    (∀ reset : Option ℚ, o 1 = ReqOutcome.response 403 true reset → 1 < mr →
      request_with_retry mr b o =
        ((request_loop mr b o 2).1,
         max (max (b * (1 : ℚ)) (reset.getD 0)) 1 :: (request_loop mr b o 2).2)) := by
  refine ⟨?_, ?_, ?_, ?_⟩
  · intro h
    show request_loop mr b o 1 = _
    exact request_loop_net_all mr b o h (mr - 1) 1 rfl
  · intro hmr h1 h2 h3
    have s1 := request_loop_transient_step mr b o 1 503 false none h1
      (by decide) (by simp) (by omega)
    have s2 := request_loop_transient_step mr b o 2 503 false none h2
      (by decide) (by simp) (by omega)
    have s3 := request_loop_ok_step mr b o 3 200 false none h3 (by simp)
      (by rintro ⟨hc, _⟩; exact absurd hc (by decide)) (by omega)
    show request_loop mr b o 1 = _
    rw [s1, s2, s3]
    norm_num
  · intro st rl0 reset h1 hge hnt hne403
    show request_loop mr b o 1 = _
    refine request_loop_fatal_step mr b o 1 st rl0 reset h1 hne403 ?_ hge
    rintro ⟨hc, _⟩
    rw [hnt] at hc
    exact Bool.false_ne_true hc
  · intro reset h1 hmr
    have s1 := request_loop_ratelimit_step mr b o 1 reset h1 (by omega)
    show request_loop mr b o 1 = _
    rw [s1]
    norm_num

/-- Witness for C6 (amended) on the trace 503, 503, 200 with
max_retries = 3, backoff = 2. -/
theorem request_retry_spec_witness :
    request_with_retry 3 2 transient_trace = (Except.ok (3, 200), [2, 4]) := by
  have h := (request_retry_spec 3 2 transient_trace).2.1 (by norm_num)
    rfl rfl rfl
  exact h.trans (by norm_num)

end StarGrowth
